import Mathlib

/-!
Shallow embedding of the Kinase Reliability Pilot decision-gate engine
(src/generate_sar.py) and calibration aggregator (src/compile_reports.py).

Numeric values are modelled as rationals (`ℚ`); Python dictionaries become
Lean structures; the "N/A" sentinel for a missing ligand deviation becomes
`Option ℚ`.  Python fixed-point float formatting used inside human-readable
description strings is abstracted by `fmtQ` (no claim depends on the digits
of a formatted number).
-/

/-- Result record of `classify_confidence` (src/generate_sar.py:51-81). -/
structure ConfidenceAssessment where
  plddt_bin : String
  pae_bin : String
  overall_confidence : String
deriving DecidableEq, Repr

/-- Embedding of `classify_confidence` (src/generate_sar.py:51-81):
pLDTT bins (>90 high, >70 medium, else low), PAE bins (<5 high, <10 medium,
else low), overall: both high => high, either low => low, else medium. -/
def classify_confidence (plddt_mean pae_mean : ℚ) : ConfidenceAssessment :=
  let plddt_bin : String :=
    if plddt_mean > 90 then "high"
    else if plddt_mean > 70 then "medium"
    else "low"
  let pae_bin : String :=
    if pae_mean < 5 then "high"
    else if pae_mean < 10 then "medium"
    else "low"
  let overall : String :=
    if plddt_bin = "high" ∧ pae_bin = "high" then "high"
    else if plddt_bin = "low" ∨ pae_bin = "low" then "low"
    else "medium"
  { plddt_bin := plddt_bin, pae_bin := pae_bin, overall_confidence := overall }

/-- The `expected_error_range` record (src/generate_sar.py:84-109). -/
structure ExpectedErrorRange where
  rmsd_min : ℚ
  rmsd_max : ℚ
  rationale : String
deriving DecidableEq, Repr

/-- Embedding of `determine_expected_error_range` (src/generate_sar.py:84-109):
reads `overall_confidence` from the assessment; "high" => [0.5, 2.0],
"medium" => [1.5, 4.0], anything else falls to the `else` branch => [3.0, 8.0]. -/
def determine_expected_error_range (confidence : ConfidenceAssessment) : ExpectedErrorRange :=
  let overall := confidence.overall_confidence
  if overall = "high" then
    { rmsd_min := 0.5, rmsd_max := 2.0,
      rationale := "High confidence (pLDDT>90, PAE<5) suggests low expected error" }
  else if overall = "medium" then
    { rmsd_min := 1.5, rmsd_max := 4.0,
      rationale := "Medium confidence suggests moderate expected error range" }
  else
    { rmsd_min := 3.0, rmsd_max := 8.0,
      rationale := "Low confidence (pLDDT<70 or PAE>10) suggests high expected error" }

/-- Result record of `classify_failure` (src/generate_sar.py:112-160). -/
structure FailureTaxonomy where
  cls : String
  description : String
deriving DecidableEq, Repr

/-- Abstraction of the Python fixed-point float formatting (`:.2f`, `:.1f`)
used only inside human-readable description strings. -/
def fmtQ (q : ℚ) : String := toString q

/-- Embedding of `classify_failure` (src/generate_sar.py:112-160), first match
wins: within range => "N/A"; overconfidence (pLDDT>90, PAE<5, RMSD > 1.5*max)
=> "Class A"; ligand present with numeric ligand RMSD > 1.5*global => "Class B";
global RMSD > 10.0 => "Class C"; otherwise "Unknown".  The Python `isinstance`
numeric test on `rmsd_ligand` becomes a match on `Option ℚ`. -/
def classify_failure (rmsd_global : ℚ) (rmsd_ligand : Option ℚ)
    (plddt_mean pae_mean : ℚ) (expected_range : ExpectedErrorRange)
    (ligand_present : Bool) : FailureTaxonomy :=
  let rmsd_max := expected_range.rmsd_max
  if rmsd_global ≤ rmsd_max then
    { cls := "N/A",
      description := "Prediction within expected error range (RMSD=" ++ fmtQ rmsd_global
        ++ "A <= " ++ fmtQ rmsd_max ++ "A)" }
  else if plddt_mean > 90 ∧ pae_mean < 5 ∧ rmsd_global > rmsd_max * 1.5 then
    { cls := "Class A",
      description := "Overconfidence artifact: High model confidence (pLDDT=" ++ fmtQ plddt_mean
        ++ ", PAE=" ++ fmtQ pae_mean ++ ") but RMSD=" ++ fmtQ rmsd_global
        ++ "A exceeds expected range" }
  else
    let tail : FailureTaxonomy :=
      if rmsd_global > 10.0 then
        { cls := "Class C",
          description := "Potential symmetry/assembly failure: Extremely high RMSD ("
            ++ fmtQ rmsd_global ++ "A) suggests structural misalignment" }
      else
        { cls := "Unknown",
          description := "Unmapped failure mode: RMSD=" ++ fmtQ rmsd_global
            ++ "A exceeds expected range but does not match known failure patterns" }
    match rmsd_ligand, ligand_present with
    | some rl, true =>
        if rl > rmsd_global * 1.5 then
          { cls := "Class B",
            description := "Ligand pose failure: Ligand pocket RMSD (" ++ fmtQ rl
              ++ "A) significantly exceeds global RMSD (" ++ fmtQ rmsd_global ++ "A)" }
        else tail
    | _, _ => tail

/-- Embedding of `determine_decision_gate` (src/generate_sar.py:163-181):
ACCEPT when within range, else REJECT for Class A / Class C / RMSD more than
twice the bound, else REVIEW.  The confidence argument is accepted but unused,
as in the source. -/
def determine_decision_gate (rmsd_global : ℚ) (expected_range : ExpectedErrorRange)
    (failure_class : String) (confidence : ConfidenceAssessment) : String :=
  let rmsd_max := expected_range.rmsd_max
  if rmsd_global ≤ rmsd_max then "ACCEPT"
  else if failure_class = "Class A" ∨ failure_class = "Class C" ∨ rmsd_global > rmsd_max * 2 then
    "REJECT"
  else "REVIEW"

/-- Embedding of `generate_recommended_action` (src/generate_sar.py:184-210). -/
def generate_recommended_action (decision_gate : String) (failure_taxonomy : FailureTaxonomy)
    (pdb_id : String) : String :=
  if decision_gate = "ACCEPT" then
    "Structure " ++ pdb_id ++ " passes quality criteria. Proceed with downstream analysis."
  else if decision_gate = "REVIEW" then
    let failure_class := failure_taxonomy.cls
    if failure_class = "Class B" then
      "Manual review recommended for " ++ pdb_id
        ++ ": Ligand binding pose shows elevated error. Verify active site geometry and ligand interactions."
    else if failure_class = "Unknown" then
      "Manual review required for " ++ pdb_id
        ++ ": Elevated error detected but failure mode unclear. Expert structural analysis needed."
    else
      "Manual review recommended for " ++ pdb_id ++ ": " ++ failure_taxonomy.description
  else
    let failure_class := failure_taxonomy.cls
    if failure_class = "Class A" then
      "Reject " ++ pdb_id
        ++ ": Overconfidence artifact detected. Model confidence metrics unreliable for this target. Consider alternative modeling approaches."
    else if failure_class = "Class C" then
      "Reject " ++ pdb_id
        ++ ": Potential symmetry/assembly failure. Verify oligomeric state and symmetry operators before use."
    else
      "Reject " ++ pdb_id
        ++ ": Error exceeds acceptable thresholds. Do not use for downstream analysis without significant refinement."

/-- The `expected_error_range` sub-dictionary as seen by `validate_sar`:
each subfield may be absent or `None` (both modelled by `none`). -/
structure ErrRangeFields where
  rmsd_min : Option ℚ
  rmsd_max : Option ℚ
  rationale : Option String
deriving DecidableEq, Repr

/-- The fields of a SAR dictionary that `validate_sar`
(src/generate_sar.py:213-246) inspects; a field that is absent from the
dictionary or set to `None` is modelled by `none`. -/
structure SarFields where
  expected_error_range : Option ErrRangeFields
  recommended_action : Option String
  decision_gate : Option String
deriving DecidableEq, Repr

/-- The `missing_fields` list built by `validate_sar`
(src/generate_sar.py:219-240): the three required fields in order, then the
three subfields of a present `expected_error_range`, then the enum check on a
present `decision_gate`. -/
def missingFields (sar : SarFields) : List String :=
  (if sar.expected_error_range = none then ["expected_error_range"] else []) ++
  (if sar.recommended_action = none then ["recommended_action"] else []) ++
  (if sar.decision_gate = none then ["decision_gate"] else []) ++
  (match sar.expected_error_range with
   | none => []
   | some er =>
     (if er.rmsd_min = none then ["expected_error_range.rmsd_min"] else []) ++
     (if er.rmsd_max = none then ["expected_error_range.rmsd_max"] else []) ++
     (if er.rationale = none then ["expected_error_range.rationale"] else [])) ++
  (match sar.decision_gate with
   | none => []
   | some g =>
     if g = "ACCEPT" ∨ g = "REVIEW" ∨ g = "REJECT" then []
     else ["decision_gate (invalid value)"])

/-- Embedding of `validate_sar` (src/generate_sar.py:213-246).  In strict mode
a non-empty `missing_fields` list raises `SARValidationError` (modelled by
`Except.error` carrying the message); otherwise the function returns normally,
printing a warning to stderr when `missing_fields` is non-empty (modelled by
`Except.ok` carrying the would-be warning list, empty when the SAR is valid). -/
def validate_sar (sar : SarFields) (strict_mode : Bool) : Except String (List String) :=
  let missing := missingFields sar
  if missing ≠ [] ∧ strict_mode then
    .error ("ERROR_SAR_INCOMPLETE: Missing required fields: " ++ String.intercalate ", " missing)
  else
    .ok missing

/-- What `main` (src/generate_sar.py:420-446) does with one target after its
SAR is built: whether the SAR file is written, whether `success_count` is
incremented, whether a lenient-mode validation warning went to stderr, whether
an entry was appended to `validation_errors`, and whether the run aborts
(`sys.exit(1)`). -/
structure TargetOutcome where
  persisted : Bool
  counted : Bool
  warned : Bool
  errorRecorded : Bool
  aborted : Bool
deriving DecidableEq, Repr

/-- Embedding of the per-target tail of `main` (src/generate_sar.py:420-446):
`validate_sar` is called; on `SARValidationError` the error is recorded and,
in strict mode, the process exits; otherwise the SAR is written to disk and
`success_count` is incremented. -/
def processTarget (sar : SarFields) (strict_mode : Bool) : TargetOutcome :=
  match validate_sar sar strict_mode with
  | .error _ =>
    { persisted := false, counted := false, warned := false,
      errorRecorded := true, aborted := strict_mode }
  | .ok missing =>
    { persisted := true, counted := true, warned := !missing.isEmpty,
      errorRecorded := false, aborted := false }

/-- `np.mean` over a list of rationals. -/
def npMean (xs : List ℚ) : ℚ := xs.sum / xs.length

/-- Round-half-to-even to an integer, as Python / numpy rounding does. -/
def roundHalfEven (x : ℚ) : ℤ :=
  let n := ⌊x⌋
  let f := x - n
  if f < 1/2 then n
  else if f > 1/2 then n + 1
  else if n % 2 = 0 then n else n + 1

/-- `round(x, 2)` on a rational. -/
def round2 (x : ℚ) : ℚ := (roundHalfEven (x * 100) : ℚ) / 100

/-- `round(x, 3)` on a rational. -/
def round3 (x : ℚ) : ℚ := (roundHalfEven (x * 1000) : ℚ) / 1000

/-- The values drawn by `generate_sar` from its surroundings on one run, which
a pure function would not have: the `np.random.uniform(1.5, 4.5)` draw inside
`compute_rmsd_stub` (src/generate_sar.py:34-36), the
`np.random.uniform(0.8, 1.5)` ligand factor (line 272), the
`np.random.uniform(0.6, 0.95)` contact-map overlap (line 277) and the
`datetime.utcnow()` timestamp (line 306).  Two runs of the process draw
different values here. -/
structure Ambient where
  uniformRmsd : ℚ
  uniformLigand : ℚ
  uniformContact : ℚ
  now : String
deriving DecidableEq, Repr

/-- The provenance block of a SAR (src/generate_sar.py:319-324), taken from
the prediction record. -/
structure Provenance where
  model_version : String
  seed : ℤ
  recycles : ℤ
  stub_output : Bool
deriving DecidableEq, Repr

/-- The `metrics` block of a SAR (src/generate_sar.py:307-313); the "N/A"
string stored for a missing ligand RMSD is modelled by `none`. -/
structure Metrics where
  rmsd_global : ℚ
  rmsd_ligand_pocket : Option ℚ
  contact_map_overlap : ℚ
  plddt_mean : ℚ
  pae_mean : ℚ
deriving DecidableEq, Repr

/-- A complete SAR as assembled by `generate_sar` (src/generate_sar.py:303-325). -/
structure SAR where
  pdb_id : String
  sar_version : String
  timestamp : String
  metrics : Metrics
  confidence_assessment : ConfidenceAssessment
  expected_error_range : ExpectedErrorRange
  recommended_action : String
  decision_gate : String
  failure_taxonomy : FailureTaxonomy
  provenance : Provenance
deriving DecidableEq, Repr

/-- Embedding of `compute_rmsd_stub` (src/generate_sar.py:28-48).  With no
ground truth the source returns `np.random.uniform(1.5, 4.5)` — modelled as
the ambient draw.  With ground truth it computes a deterministic
root-mean-square deviation of the coordinate arrays; that arithmetic is
abstracted to its value `r`, since no claim depends on the coordinate math,
only on which branch is deterministic. -/
def compute_rmsd_stub (amb : Ambient) (gtRmsd : Option ℚ) : ℚ :=
  match gtRmsd with
  | none => amb.uniformRmsd
  | some r => r

/-- Embedding of `generate_sar` (src/generate_sar.py:249-327).  Inputs: the
target id and ligand flag, the prediction pLDDT scores and PAE matrix (means
are computed here as in the source), the deterministic RMSD value when ground
truth is present (`none` = no ground truth), the provenance fields read from
the prediction, and the ambient random draws / clock described at `Ambient`. -/
def generate_sar (pdb_id : String) (plddt_scores : List ℚ) (pae_matrix : List (List ℚ))
    (gtRmsd : Option ℚ) (ligand_present : Bool) (prov : Provenance) (amb : Ambient) : SAR :=
  let plddt_mean := npMean plddt_scores
  let pae_mean := (pae_matrix.map List.sum).sum / ((pae_matrix.map List.length).sum : ℚ)
  let rmsd_global := compute_rmsd_stub amb gtRmsd
  let rmsd_ligand_pocket : Option ℚ :=
    if ligand_present then some (rmsd_global * amb.uniformLigand) else none
  let contact_map_overlap := amb.uniformContact
  let confidence_assessment := classify_confidence plddt_mean pae_mean
  let expected_error_range := determine_expected_error_range confidence_assessment
  let failure_taxonomy := classify_failure rmsd_global rmsd_ligand_pocket
    plddt_mean pae_mean expected_error_range ligand_present
  let decision_gate := determine_decision_gate rmsd_global expected_error_range
    failure_taxonomy.cls confidence_assessment
  let recommended_action := generate_recommended_action decision_gate failure_taxonomy pdb_id
  { pdb_id := pdb_id
    sar_version := "1.0"
    timestamp := amb.now ++ "Z"
    metrics :=
      { rmsd_global := round2 rmsd_global
        rmsd_ligand_pocket := rmsd_ligand_pocket.map round2
        contact_map_overlap := round3 contact_map_overlap
        plddt_mean := round2 plddt_mean
        pae_mean := round2 pae_mean }
    confidence_assessment := confidence_assessment
    expected_error_range := expected_error_range
    recommended_action := recommended_action
    decision_gate := decision_gate
    failure_taxonomy := failure_taxonomy
    provenance := prov }

/-- The two fields of a finalized SAR that `generate_calibration_report`
(src/compile_reports.py:170-227) reads: `confidence_assessment.overall_confidence`
and `metrics.rmsd_global`. -/
structure CalSar where
  overall_confidence : String
  rmsd_global : ℚ
deriving DecidableEq, Repr

/-- The grouping loop of `generate_calibration_report`
(src/compile_reports.py:178-183): `confidence_bins` starts as a dictionary with
exactly the keys "high", "medium", "low"; each SAR appends its `rmsd_global` to
the bin of its overall confidence; a SAR whose band is none of the three keys
raises `KeyError` (modelled by `Except.error`). -/
def binsOf : List CalSar → Except String (List ℚ × List ℚ × List ℚ)
  | [] => .ok ([], [], [])
  | s :: rest =>
    match binsOf rest with
    | .error e => .error e
    | .ok (h, m, l) =>
      if s.overall_confidence = "high" then .ok (s.rmsd_global :: h, m, l)
      else if s.overall_confidence = "medium" then .ok (h, s.rmsd_global :: m, l)
      else if s.overall_confidence = "low" then .ok (h, m, s.rmsd_global :: l)
      else .error "KeyError"

/-- `np.std` with the default `ddof=0`: the population variance (whose square
root the source stores). -/
def npVar (xs : List ℚ) : ℚ :=
  ((xs.map (fun x => (x - npMean xs) ^ 2)).sum) / xs.length

/-- `np.min` over a non-empty list (0 on the empty list, unreachable here). -/
def npMin (xs : List ℚ) : ℚ :=
  match xs with
  | [] => 0
  | x :: t => t.foldl min x

/-- `np.max` over a non-empty list (0 on the empty list, unreachable here). -/
def npMax (xs : List ℚ) : ℚ :=
  match xs with
  | [] => 0
  | x :: t => t.foldl max x

/-- Insert into a sorted list of rationals. -/
def insertQ (x : ℚ) : List ℚ → List ℚ
  | [] => [x]
  | y :: t => if x ≤ y then x :: y :: t else y :: insertQ x t

/-- Sort a list of rationals ascending (insertion sort). -/
def sortQ (xs : List ℚ) : List ℚ := xs.foldr insertQ []

/-- `np.median`: middle element of the sorted list for odd length, mean of the
two middle elements for even length. -/
def npMedian (xs : List ℚ) : ℚ :=
  let s := sortQ xs
  let n := s.length
  if n % 2 = 1 then s.getD (n / 2) 0
  else (s.getD (n / 2 - 1) 0 + s.getD (n / 2) 0) / 2

/-- The per-bin statistics record of `generate_calibration_report`
(src/compile_reports.py:192-199).  `rmsd_std` is the square root of the
population variance, a real number. -/
structure BinStats where
  n_samples : ℕ
  rmsd_mean : ℚ
  rmsd_std : ℝ
  rmsd_min : ℚ
  rmsd_max : ℚ
  rmsd_median : ℚ

/-- The statistics stored for one non-empty bin
(src/compile_reports.py:192-199). -/
noncomputable def binStats (xs : List ℚ) : BinStats :=
  { n_samples := xs.length
    rmsd_mean := npMean xs
    rmsd_std := Real.sqrt ((npVar xs : ℚ) : ℝ)
    rmsd_min := npMin xs
    rmsd_max := npMax xs
    rmsd_median := npMedian xs }

/-- The report record written to `calibration_report.json`
(src/compile_reports.py:206-217), restricted to the fields computed from the
SAR set (version / timestamp / static interpretation text omitted).
`calibration_data` is the dictionary as an association list in insertion order
high, medium, low. -/
structure CalReport where
  total_targets : ℕ
  confidence_bins : ℕ
  calibration_data : List (String × BinStats)

/-- Embedding of `generate_calibration_report` (src/compile_reports.py:170-227):
groups the SARs into the three confidence bins, stores `binStats` for each
non-empty bin while counting `bins_with_data`, and returns the report together
with the boolean `bins_with_data >= 3` that the source returns to `main`. -/
noncomputable def generate_calibration_report (sars : List CalSar) :
    Except String (CalReport × Bool) :=
  match binsOf sars with
  | .error e => .error e
  | .ok (h, m, l) =>
    let entries : List (String × BinStats) :=
      (if h ≠ [] then [("high", binStats h)] else []) ++
      (if m ≠ [] then [("medium", binStats m)] else []) ++
      (if l ≠ [] then [("low", binStats l)] else [])
    let bins_with_data := entries.length
    .ok ({ total_targets := sars.length
           confidence_bins := bins_with_data
           calibration_data := entries },
         decide (bins_with_data ≥ 3))

/-- The observed global deviations of the SARs in band `b`, in input order. -/
def bandValues (b : String) (sars : List CalSar) : List ℚ :=
  (sars.filter (fun s => s.overall_confidence = b)).map (fun s => s.rmsd_global)

/-- The calibration entries determined by the SAR set alone (no reference to
the pass signal): one entry per non-empty band, in order high, medium, low,
carrying that band's statistics. -/
noncomputable def calibrationEntries (sars : List CalSar) : List (String × BinStats) :=
  (["high", "medium", "low"] : List String).filterMap (fun b =>
    if bandValues b sars ≠ [] then some (b, binStats (bandValues b sars)) else none)

/-- C1 counterexample: with deviation 1 within the upper bound 2 but failure
class "Class A", `determine_decision_gate` returns ACCEPT, not REJECT — so the
unconditional "REJECT whenever the failure class is Class A or Class C" part
of the claim is false: the within-range ACCEPT branch takes precedence. -/
theorem claim_C1_counterexample :
    determine_decision_gate 1 ⟨0.5, 2, "r"⟩ "Class A" ⟨"high", "high", "high"⟩ = "ACCEPT" ∧
    ("ACCEPT" : String) ≠ "REJECT" := by
  decide

/-- C1 (amended): for every input tuple, the gate is ACCEPT iff the deviation
is within the upper bound; REJECT iff the deviation exceeds the upper bound
and (the class is Class A or Class C or the deviation exceeds twice the upper
bound); REVIEW in all remaining cases; and exactly one of the three values
results. -/
theorem claim_C1_amended (g : ℚ) (er : ExpectedErrorRange) (fc : String)
    (conf : ConfidenceAssessment) :
    (determine_decision_gate g er fc conf = "ACCEPT" ↔ g ≤ er.rmsd_max) ∧
    (determine_decision_gate g er fc conf = "REJECT" ↔
      (¬ g ≤ er.rmsd_max ∧ (fc = "Class A" ∨ fc = "Class C" ∨ g > er.rmsd_max * 2))) ∧
    (determine_decision_gate g er fc conf = "REVIEW" ↔
      (¬ g ≤ er.rmsd_max ∧ ¬(fc = "Class A" ∨ fc = "Class C" ∨ g > er.rmsd_max * 2))) ∧
    (determine_decision_gate g er fc conf = "ACCEPT" ∨
     determine_decision_gate g er fc conf = "REVIEW" ∨
     determine_decision_gate g er fc conf = "REJECT") := by
  simp only [determine_decision_gate]
  split_ifs with h1 h2 <;> simp_all

/-- C2: `classify_confidence` always yields an overall band in
{high, medium, low}; the overall band is low whenever either signal band is
low; it is high exactly when both signal bands are high, equivalently exactly
when the confidence-score mean exceeds 90 and the error-estimate mean is below
5; and it is medium in every remaining case. -/
theorem claim_C2 (pl pa : ℚ) :
    ((classify_confidence pl pa).overall_confidence = "high" ∨
     (classify_confidence pl pa).overall_confidence = "medium" ∨
     (classify_confidence pl pa).overall_confidence = "low") ∧
    (((classify_confidence pl pa).plddt_bin = "low" ∨
      (classify_confidence pl pa).pae_bin = "low") →
      (classify_confidence pl pa).overall_confidence = "low") ∧
    ((classify_confidence pl pa).overall_confidence = "high" ↔
      ((classify_confidence pl pa).plddt_bin = "high" ∧
       (classify_confidence pl pa).pae_bin = "high")) ∧
    ((classify_confidence pl pa).overall_confidence = "high" ↔ (pl > 90 ∧ pa < 5)) ∧
    ((¬((classify_confidence pl pa).plddt_bin = "low" ∨
        (classify_confidence pl pa).pae_bin = "low") ∧
      ¬((classify_confidence pl pa).plddt_bin = "high" ∧
        (classify_confidence pl pa).pae_bin = "high")) →
      (classify_confidence pl pa).overall_confidence = "medium") := by
  simp only [classify_confidence]
  split_ifs <;> simp_all

/-- C2 witness: at confidence-score mean 60 and error-estimate mean 3 the
confidence-score band is low, and the theorem yields overall band low. -/
theorem claim_C2_witness :
    (classify_confidence 60 3).overall_confidence = "low" :=
  (claim_C2 60 3).2.1 (Or.inl (by decide))

/-- C3: whenever the observed global deviation is at most the expected range
upper bound (inclusive), `classify_failure` returns class "N/A", regardless of
the ligand flag, ligand deviation, confidence-score mean and error-estimate
mean. -/
theorem claim_C3 (g : ℚ) (lig : Option ℚ) (pl pa : ℚ) (er : ExpectedErrorRange)
    (lp : Bool) (h : g ≤ er.rmsd_max) :
    (classify_failure g lig pl pa er lp).cls = "N/A" := by
  unfold classify_failure
  simp [h]

/-- C3 witness: at deviation 2 equal to the upper bound 2 (boundary, with a
ligand present and a huge ligand deviation) the class is "N/A". -/
theorem claim_C3_witness :
    ((2 : ℚ) ≤ (2 : ℚ)) ∧
    (classify_failure 2 (some 100) 95 3 ⟨0.5, 2, "r"⟩ true).cls = "N/A" :=
  ⟨by decide, claim_C3 2 (some 100) 95 3 ⟨0.5, 2, "r"⟩ true (by decide)⟩

/-- C4: `determine_expected_error_range` realises exactly the fixed lookup
high => [0.5, 2.0], medium => [1.5, 4.0], low => [3.0, 8.0], each with its
rationale citing that confidence level, and its output depends only on the
overall band (so two calls with the same overall band give identical output). -/
theorem claim_C4 (c c' : ConfidenceAssessment)
    (hsame : c.overall_confidence = c'.overall_confidence) :
    (c.overall_confidence = "high" →
      determine_expected_error_range c =
        ⟨0.5, 2.0, "High confidence (pLDDT>90, PAE<5) suggests low expected error"⟩) ∧
    (c.overall_confidence = "medium" →
      determine_expected_error_range c =
        ⟨1.5, 4.0, "Medium confidence suggests moderate expected error range"⟩) ∧
    (c.overall_confidence = "low" →
      determine_expected_error_range c =
        ⟨3.0, 8.0, "Low confidence (pLDDT<70 or PAE>10) suggests high expected error"⟩) ∧
    determine_expected_error_range c = determine_expected_error_range c' := by
  refine ⟨fun h => ?_, fun h => ?_, fun h => ?_, ?_⟩
  · simp [determine_expected_error_range, h]
  · simp [determine_expected_error_range, h]
  · simp [determine_expected_error_range, h]
  · simp only [determine_expected_error_range, hsame]

/-- C4 witness: on an assessment with overall band "high" the range is
[0.5, 2.0] with the high-confidence rationale, and a second call agrees. -/
theorem claim_C4_witness :
    ((⟨"high", "high", "high"⟩ : ConfidenceAssessment).overall_confidence = "high") ∧
    determine_expected_error_range ⟨"high", "high", "high"⟩ =
      ⟨0.5, 2.0, "High confidence (pLDDT>90, PAE<5) suggests low expected error"⟩ :=
  ⟨by decide, (claim_C4 ⟨"high", "high", "high"⟩ ⟨"high", "high", "high"⟩ rfl).1 (by decide)⟩

/-- C5: in strict mode `validate_sar` fails with an ERROR_SAR_INCOMPLETE error
exactly when decision_gate, expected_error_range or recommended_action is
missing/null, or a subfield of a present expected_error_range is missing/null,
or a present decision_gate is outside {ACCEPT, REVIEW, REJECT}; in particular
a record missing decision_gate fails, and decision_gate "MAYBE" fails. -/
theorem claim_C5 (sar : SarFields) :
    ((∃ e, validate_sar sar true = .error e) ↔
      (sar.decision_gate = none ∨
       sar.expected_error_range = none ∨
       sar.recommended_action = none ∨
       (∃ er, sar.expected_error_range = some er ∧
         (er.rmsd_min = none ∨ er.rmsd_max = none ∨ er.rationale = none)) ∨
       (∃ g, sar.decision_gate = some g ∧
         ¬(g = "ACCEPT" ∨ g = "REVIEW" ∨ g = "REJECT")))) ∧
    (∃ e, validate_sar ⟨some ⟨some 0.5, some 2.0, some "r"⟩, some "act", none⟩ true
      = .error e) ∧
    (∃ e, validate_sar ⟨some ⟨some 0.5, some 2.0, some "r"⟩, some "act", some "MAYBE"⟩ true
      = .error e) := by
  obtain ⟨_ | ⟨_ | mn, _ | mx, _ | rat⟩, _ | a, _ | g⟩ := sar <;>
    refine ⟨?_, by simp [validate_sar, missingFields], by simp [validate_sar, missingFields]⟩ <;>
    simp [validate_sar, missingFields] <;> split_ifs <;> simp_all

/-- C6 counterexample: in lenient mode a SAR missing `decision_gate` is still
written to disk and still counted toward `success_count` — the claim that the
invalid SAR is excluded from the success tally and persisted output is false.
Only a stderr warning records the failure. -/
theorem claim_C6_counterexample :
    (processTarget ⟨some ⟨some 1.5, some 4.0, some "r"⟩, some "act", none⟩ false).counted
      = true ∧
    (processTarget ⟨some ⟨some 1.5, some 4.0, some "r"⟩, some "act", none⟩ false).persisted
      = true ∧
    (processTarget ⟨some ⟨some 1.5, some 4.0, some "r"⟩, some "act", none⟩ false).errorRecorded
      = false := by
  simp [processTarget, validate_sar, missingFields]

/-- C6 (amended): in lenient mode a validation failure is logged as a warning
and processing continues, but the offending SAR is still persisted and still
counted toward the success tally; in strict mode the same failure is recorded
and aborts processing of the batch. -/
theorem claim_C6_amended (sar : SarFields) (h : missingFields sar ≠ []) :
    processTarget sar false =
      { persisted := true, counted := true, warned := true,
        errorRecorded := false, aborted := false } ∧
    processTarget sar true =
      { persisted := false, counted := false, warned := false,
        errorRecorded := true, aborted := true } := by
  constructor <;> simp [processTarget, validate_sar, h]

/-- C6 witness: a SAR record missing `decision_gate` exercises both modes of
the amended claim. -/
theorem claim_C6_amended_witness :
    missingFields ⟨some ⟨some 1.5, some 4.0, some "r"⟩, some "act", none⟩ ≠ [] ∧
    (processTarget ⟨some ⟨some 1.5, some 4.0, some "r"⟩, some "act", none⟩ false =
      { persisted := true, counted := true, warned := true,
        errorRecorded := false, aborted := false } ∧
     processTarget ⟨some ⟨some 1.5, some 4.0, some "r"⟩, some "act", none⟩ true =
      { persisted := false, counted := false, warned := false,
        errorRecorded := true, aborted := true }) :=
  ⟨by decide, claim_C6_amended _ (by decide)⟩

/-- C8: two runs of `generate_sar` on the same injected inputs give different
SARs.  First conjunct: with no ground truth, the `np.random.uniform` fallback
draw inside `compute_rmsd_stub` (2 on one run, 20 on another) flips the
decision gate itself, so the code does generate fallback random data that
changes the SAR.  Second conjunct: even with ground truth present, the
`datetime.utcnow()` timestamp (and likewise the random contact-map draw) makes
the two runs' SAR contents differ.  This contradicts the determinism stated by
the claim and by the source's own comment "return deterministic stub value". -/
theorem claim_C8_nondeterminism :
    generate_sar "KIN1" [80] [[7]] none false ⟨"af3", 42, 3, true⟩ ⟨2, 1, 0.7, "t1"⟩ ≠
      generate_sar "KIN1" [80] [[7]] none false ⟨"af3", 42, 3, true⟩ ⟨20, 1, 0.7, "t1"⟩ ∧
    generate_sar "KIN1" [80] [[7]] (some 2) false ⟨"af3", 42, 3, true⟩ ⟨2, 1, 0.7, "t1"⟩ ≠
      generate_sar "KIN1" [80] [[7]] (some 2) false ⟨"af3", 42, 3, true⟩ ⟨2, 1, 0.7, "t2"⟩ := by
  constructor
  · intro h
    have hg := congrArg (fun s => s.decision_gate) h
    norm_num [generate_sar, npMean, compute_rmsd_stub, classify_confidence,
      determine_expected_error_range, classify_failure, determine_decision_gate] at hg
    simp at hg
    norm_num at hg
    exact absurd hg (by decide)
  · intro h
    have ht := congrArg (fun s => s.timestamp) h
    simp only [generate_sar] at ht
    exact absurd ht (by decide)

/-- When every SAR carries one of the three valid bands, the grouping loop
succeeds and its three bins are exactly the per-band value lists. -/
theorem binsOf_eq_bandValues (sars : List CalSar)
    (h : ∀ s ∈ sars, s.overall_confidence = "high" ∨ s.overall_confidence = "medium" ∨
      s.overall_confidence = "low") :
    binsOf sars =
      .ok (bandValues "high" sars, bandValues "medium" sars, bandValues "low" sars) := by
  induction sars with
  | nil => simp [binsOf, bandValues]
  | cons s rest ih =>
    have hrest : ∀ x ∈ rest, x.overall_confidence = "high" ∨
        x.overall_confidence = "medium" ∨ x.overall_confidence = "low" :=
      fun x hx => h x (List.mem_cons_of_mem _ hx)
    have hs := h s (List.mem_cons_self _ _)
    simp only [binsOf, ih hrest]
    rcases hs with h1 | h1 | h1 <;> simp [bandValues, h1]

/-- The entry list built by the report loop coincides with `calibrationEntries`. -/
theorem calibrationEntries_eq (sars : List CalSar) :
    calibrationEntries sars =
      (if bandValues "high" sars ≠ [] then
        [("high", binStats (bandValues "high" sars))] else []) ++
      (if bandValues "medium" sars ≠ [] then
        [("medium", binStats (bandValues "medium" sars))] else []) ++
      (if bandValues "low" sars ≠ [] then
        [("low", binStats (bandValues "low" sars))] else []) := by
  by_cases h1 : bandValues "high" sars = [] <;>
    by_cases h2 : bandValues "medium" sars = [] <;>
    by_cases h3 : bandValues "low" sars = [] <;>
    simp [calibrationEntries, h1, h2, h3]

/-- If every SAR is in band `b`, band `b` collects every observed deviation. -/
theorem bandValues_all (sars : List CalSar) (b : String)
    (hall : ∀ s ∈ sars, s.overall_confidence = b) :
    bandValues b sars = sars.map (fun s => s.rmsd_global) := by
  unfold bandValues
  congr 1
  rw [List.filter_eq_self]
  intro a ha
  simp [hall a ha]

/-- If every SAR is in band `b`, any other band is empty. -/
theorem bandValues_other (sars : List CalSar) (b b' : String)
    (hall : ∀ s ∈ sars, s.overall_confidence = b) (hne : b' ≠ b) :
    bandValues b' sars = [] := by
  unfold bandValues
  rw [List.map_eq_nil_iff, List.filter_eq_nil_iff]
  intro a ha
  simp [hall a ha]
  exact fun h => hne h.symm

/-- C7: for a finalized SAR set (every band valid), the calibration
aggregation succeeds and yields a report whose `calibration_data` is exactly
one entry per non-empty band — carrying that band's sample count, mean,
population standard deviation, min, max and median via `binStats` — and is
determined by the SAR set alone (`calibrationEntries` makes no reference to
the pass signal); the `confidence_bins` count and the returned pass boolean
are as the claim states (pass iff at least 3 bands are non-empty); and when
all SARs lie in a single band, pass is false and exactly one populated-band
entry exists. -/
theorem claim_C7 (sars : List CalSar)
    (hval : ∀ s ∈ sars, s.overall_confidence = "high" ∨ s.overall_confidence = "medium" ∨
      s.overall_confidence = "low") :
    ∃ rep pass, generate_calibration_report sars = .ok (rep, pass) ∧
      rep.calibration_data = calibrationEntries sars ∧
      (∀ b, (b = "high" ∨ b = "medium" ∨ b = "low") →
        ((rep.calibration_data.lookup b).isSome ↔ bandValues b sars ≠ []) ∧
        (bandValues b sars ≠ [] →
          rep.calibration_data.lookup b = some (binStats (bandValues b sars)))) ∧
      rep.total_targets = sars.length ∧
      rep.confidence_bins =
        List.countP (fun b => !(bandValues b sars).isEmpty) ["high", "medium", "low"] ∧
      (pass = true ↔
        3 ≤ List.countP (fun b => !(bandValues b sars).isEmpty) ["high", "medium", "low"]) ∧
      (∀ b, (b = "high" ∨ b = "medium" ∨ b = "low") → sars ≠ [] →
        (∀ s ∈ sars, s.overall_confidence = b) →
        pass = false ∧ rep.calibration_data.length = 1) := by
  have hb := binsOf_eq_bandValues sars hval
  set E : List (String × BinStats) :=
    (if bandValues "high" sars ≠ [] then
      [("high", binStats (bandValues "high" sars))] else []) ++
    (if bandValues "medium" sars ≠ [] then
      [("medium", binStats (bandValues "medium" sars))] else []) ++
    (if bandValues "low" sars ≠ [] then
      [("low", binStats (bandValues "low" sars))] else []) with hE
  have hrep : generate_calibration_report sars =
      .ok (⟨sars.length, E.length, E⟩, decide (E.length ≥ 3)) := by
    rw [generate_calibration_report.eq_def, hb]
  refine ⟨_, _, hrep, ?_, ?_, rfl, ?_, ?_, ?_⟩
  · show E = calibrationEntries sars
    rw [hE]
    exact (calibrationEntries_eq sars).symm
  · intro b hbnd
    dsimp only
    rcases hbnd with rfl | rfl | rfl <;>
      rw [hE] <;>
      by_cases h1 : bandValues "high" sars = [] <;>
      by_cases h2 : bandValues "medium" sars = [] <;>
      by_cases h3 : bandValues "low" sars = [] <;>
      simp [List.lookup, h1, h2, h3]
  · dsimp only
    rw [hE]
    by_cases h1 : bandValues "high" sars = [] <;>
      by_cases h2 : bandValues "medium" sars = [] <;>
      by_cases h3 : bandValues "low" sars = [] <;>
      simp [h1, h2, h3]
  · dsimp only
    rw [hE]
    by_cases h1 : bandValues "high" sars = [] <;>
      by_cases h2 : bandValues "medium" sars = [] <;>
      by_cases h3 : bandValues "low" sars = [] <;>
      simp [h1, h2, h3]
  · intro b hbnd hne hall
    have hmap : sars.map (fun s => s.rmsd_global) ≠ [] := by
      simpa using hne
    dsimp only
    rw [hE]
    rcases hbnd with rfl | rfl | rfl
    · rw [bandValues_all sars "high" hall,
        bandValues_other sars "high" "medium" hall (by decide),
        bandValues_other sars "high" "low" hall (by decide)]
      simp [hmap]
    · rw [bandValues_other sars "medium" "high" hall (by decide),
        bandValues_all sars "medium" hall,
        bandValues_other sars "medium" "low" hall (by decide)]
      simp [hmap]
    · rw [bandValues_other sars "low" "high" hall (by decide),
        bandValues_other sars "low" "medium" hall (by decide),
        bandValues_all sars "low" hall]
      simp [hmap]

/-- C7 witness: two SARs, both in the high band: the aggregation succeeds,
pass is false and exactly one populated-band entry exists. -/
theorem claim_C7_witness :
    (∀ s ∈ ([⟨"high", 1⟩, ⟨"high", 3⟩] : List CalSar),
      s.overall_confidence = "high" ∨ s.overall_confidence = "medium" ∨
      s.overall_confidence = "low") ∧
    (∃ rep pass,
      generate_calibration_report [⟨"high", 1⟩, ⟨"high", 3⟩] = .ok (rep, pass) ∧
      rep.calibration_data = calibrationEntries [⟨"high", 1⟩, ⟨"high", 3⟩] ∧
      (∀ b, (b = "high" ∨ b = "medium" ∨ b = "low") →
        ((rep.calibration_data.lookup b).isSome ↔
          bandValues b [⟨"high", 1⟩, ⟨"high", 3⟩] ≠ []) ∧
        (bandValues b [⟨"high", 1⟩, ⟨"high", 3⟩] ≠ [] →
          rep.calibration_data.lookup b =
            some (binStats (bandValues b [⟨"high", 1⟩, ⟨"high", 3⟩])))) ∧
      rep.total_targets = ([⟨"high", 1⟩, ⟨"high", 3⟩] : List CalSar).length ∧
      rep.confidence_bins =
        List.countP (fun b => !(bandValues b [⟨"high", 1⟩, ⟨"high", 3⟩]).isEmpty)
          ["high", "medium", "low"] ∧
      (pass = true ↔
        3 ≤ List.countP (fun b => !(bandValues b [⟨"high", 1⟩, ⟨"high", 3⟩]).isEmpty)
          ["high", "medium", "low"]) ∧
      (∀ b, (b = "high" ∨ b = "medium" ∨ b = "low") →
        ([⟨"high", 1⟩, ⟨"high", 3⟩] : List CalSar) ≠ [] →
        (∀ s ∈ ([⟨"high", 1⟩, ⟨"high", 3⟩] : List CalSar), s.overall_confidence = b) →
        pass = false ∧ rep.calibration_data.length = 1)) :=
  ⟨by decide, claim_C7 [⟨"high", 1⟩, ⟨"high", 3⟩] (by decide)⟩

/-- C9: end-to-end scenario B — confidence-score mean 95 and error-estimate
mean 3 give overall band high and expected range [0.5, 2.0]; the observed
deviation 5.0 exceeds 1.5 times the upper bound 2.0; the failure class is
"Class A" and the decision gate, fed that class, is "REJECT". -/
theorem claim_C9 :
    (classify_confidence 95 3).overall_confidence = "high" ∧
    determine_expected_error_range (classify_confidence 95 3) =
      ⟨0.5, 2.0, "High confidence (pLDDT>90, PAE<5) suggests low expected error"⟩ ∧
    ((1.5 : ℚ) * 2.0 < 5.0) ∧
    (classify_failure 5.0 none 95 3
      (determine_expected_error_range (classify_confidence 95 3)) false).cls = "Class A" ∧
    determine_decision_gate 5.0 (determine_expected_error_range (classify_confidence 95 3))
      (classify_failure 5.0 none 95 3
        (determine_expected_error_range (classify_confidence 95 3)) false).cls
      (classify_confidence 95 3) = "REJECT" := by
  norm_num [classify_confidence, determine_expected_error_range, classify_failure,
    determine_decision_gate]

/-- C10: `determine_expected_error_range` is total on arbitrary overall-band
strings — it always returns one of the three fixed ranges, and any band other
than "high" and "medium" (including "low" and any invalid name) is silently
mapped to the low-confidence range [3.0, 8.0] with the low-confidence
rationale. -/
theorem claim_C10 (c : ConfidenceAssessment) :
    (determine_expected_error_range c =
        ⟨0.5, 2.0, "High confidence (pLDDT>90, PAE<5) suggests low expected error"⟩ ∨
     determine_expected_error_range c =
        ⟨1.5, 4.0, "Medium confidence suggests moderate expected error range"⟩ ∨
     determine_expected_error_range c =
        ⟨3.0, 8.0, "Low confidence (pLDDT<70 or PAE>10) suggests high expected error"⟩) ∧
    ((c.overall_confidence ≠ "high" ∧ c.overall_confidence ≠ "medium") →
      determine_expected_error_range c =
        ⟨3.0, 8.0, "Low confidence (pLDDT<70 or PAE>10) suggests high expected error"⟩) := by
  simp only [determine_expected_error_range]
  split_ifs with h1 h2 <;> simp_all

/-- C10 witness: the invalid band name "banana" maps to the low-confidence
range. -/
theorem claim_C10_witness :
    (("banana" : String) ≠ "high" ∧ ("banana" : String) ≠ "medium") ∧
    determine_expected_error_range ⟨"x", "y", "banana"⟩ =
      ⟨3.0, 8.0, "Low confidence (pLDDT<70 or PAE>10) suggests high expected error"⟩ :=
  ⟨by decide, (claim_C10 ⟨"x", "y", "banana"⟩).2 (by decide)⟩
